import Mathlib

/-!
Shallow embedding of the meme retrieval engine of the Tanjiro chatbot
repository (`meme_search.py` and the media cache of `tanjiro_web.py`).

Network interaction is modelled by oracles: a `Net` maps a
(subreddit, query, request-limit) triple to the provider's response, and a
`FetchOracle` maps a URL to the outcome of a streaming download.  The call
to `random.shuffle` is modelled by an arbitrary reordering function
`Shuffle`; theorems that need it assume the reordering is a permutation.
Python exceptions are modelled with `Except`: every operation of the
source that can raise returns `Except Unit`, and each `try/except` of the
source is a `match` on that result at the same place.

Python string primitives (`strip`, `lower`, `split`, `endswith`,
`replace`, membership) are implemented over `List Char` so that all
definitions reduce inside the kernel.
-/

/-- Python `\w` on ASCII input: letters, digits and underscore. -/
def isWordChar (c : Char) : Bool := c.isAlphanum || c = '_'

/-- Python `str.isspace` characters (ASCII). -/
def pyIsSpace (c : Char) : Bool :=
  c = ' ' || c = '\t' || c = '\n' || c = '\x0d' || c = '\x0b' || c = '\x0c'

/-- Python `str.strip()`. -/
def pyStrip (s : String) : String :=
  String.mk (((s.data.dropWhile pyIsSpace).reverse.dropWhile pyIsSpace).reverse)

/-- ASCII lowercasing of one character. -/
def pyCharLower (c : Char) : Char :=
  if 'A' ≤ c ∧ c ≤ 'Z' then Char.ofNat (c.toNat + 32) else c

/-- Python `str.lower()` (ASCII). -/
def pyLower (s : String) : String := String.mk (s.data.map pyCharLower)

/-- Python `needle in hay` for lists. -/
def subOccursIn (needle : List Char) : List Char → Bool
  | [] => needle.isEmpty
  | c :: rest => List.isPrefixOf needle (c :: rest) || subOccursIn needle rest

/-- Python `sub in s` (substring containment). -/
def containsSub (hay sub : String) : Bool := subOccursIn sub.data hay.data

/-- Python `s.endswith(suffix)`. -/
def pyEndsWith (s suffix : String) : Bool := List.isSuffixOf suffix.data s.data

/-- Replacement loop of Python `str.replace` for a non-empty needle,
with a fuel argument bounding the number of characters processed. -/
def replaceFuel (needle repl : List Char) : Nat → List Char → List Char
  | 0, cs => cs
  | _ + 1, [] => []
  | fuel + 1, c :: cs =>
    if List.isPrefixOf needle (c :: cs) then
      repl ++ replaceFuel needle repl fuel (List.drop needle.length (c :: cs))
    else c :: replaceFuel needle repl fuel cs

/-- Python `s.replace(needle, repl)` for a non-empty needle. -/
def pyReplace (s needle repl : String) : String :=
  String.mk (replaceFuel needle.data repl.data s.data.length s.data)

/-- Python `str.split()` with no separator: split on whitespace runs,
dropping empty pieces. The first argument accumulates the current word
(reversed). -/
def pySplitChars : List Char → List Char → List String
  | acc, [] => if acc.isEmpty then [] else [String.mk acc.reverse]
  | acc, c :: rest =>
    if pyIsSpace c then
      if acc.isEmpty then pySplitChars [] rest
      else String.mk acc.reverse :: pySplitChars [] rest
    else pySplitChars (c :: acc) rest

def pySplit (s : String) : List String := pySplitChars [] s.data

/-- One pass over the characters of the query implementing the regex
`#(\w+)`: returns the characters with every match removed (for
`re.sub`) together with the captured groups in order (for `re.findall`).
The first argument is the run of word characters (reversed) of the
hashtag currently being read, `some []` meaning a `#` was just seen. -/
def scanHashtagChars : Option (List Char) → List Char → List Char × List String
  | none, [] => ([], [])
  | some [], [] => (['#'], [])
  | some (w :: ws), [] => ([], [String.mk (w :: ws).reverse])
  | none, c :: rest =>
    if c = '#' then scanHashtagChars (some []) rest
    else
      let (cs, ts) := scanHashtagChars none rest
      (c :: cs, ts)
  | some [], c :: rest =>
    if isWordChar c then scanHashtagChars (some [c]) rest
    else if c = '#' then
      let (cs, ts) := scanHashtagChars (some []) rest
      ('#' :: cs, ts)
    else
      let (cs, ts) := scanHashtagChars none rest
      ('#' :: c :: cs, ts)
  | some (w :: ws), c :: rest =>
    if isWordChar c then scanHashtagChars (some (c :: w :: ws)) rest
    else if c = '#' then
      let (cs, ts) := scanHashtagChars (some []) rest
      (cs, String.mk (w :: ws).reverse :: ts)
    else
      let (cs, ts) := scanHashtagChars none rest
      (c :: cs, String.mk (w :: ws).reverse :: ts)

/-- `MemeSearcher._extract_hashtags`: find all `#(\w+)` hashtags, remove
them from the query, and adopt the first hashtag as the query when the
remaining text is empty. -/
def extractHashtags (query : String) : String × List String :=
  let scanned := scanHashtagChars none query.data
  let hashtags := scanned.2
  let cleaned := pyStrip (String.mk scanned.1)
  let cleaned :=
    if cleaned = "" then
      match hashtags with
      | t :: _ => t
      | [] => cleaned
    else cleaned
  (cleaned, hashtags)

/-- Python `re.sub(r'[^\w\s]', '', s)`: drop every character that is
neither a word character nor whitespace. -/
def stripPunct (s : String) : String :=
  String.mk (s.data.filter (fun c => isWordChar c || pyIsSpace c))

def commonWordList : List String :=
  ["a", "an", "the", "of", "for", "in", "on", "at", "by", "with", "about"]

def priorityKeywordList : List String :=
  ["anime", "demon", "slayer", "nezuko", "tanjiro", "zenitsu"]

/-- Python `" ".join(words)`. -/
def joinSpace : List String → String
  | [] => ""
  | w :: rest => rest.foldl (fun acc x => acc ++ " " ++ x) w

/-- `MemeSearcher._clean_search_query`: lowercase, remove punctuation,
drop stopwords and short tokens, move priority keywords to the front,
and fall back to the (lowercased, punctuation-stripped) string when no
token survives. -/
def cleanSearchQuery (query : String) : String :=
  let q := stripPunct (pyLower query)
  let words := (pySplit q).filter
    (fun w => !commonWordList.contains w && decide (2 < w.length))
  let priorityWords := words.filter (fun w => priorityKeywordList.contains w)
  let words :=
    if priorityWords.isEmpty then words
    else priorityWords ++ priorityWords.foldl (fun acc w => acc.erase w) words
  if words.isEmpty then q else joinSpace words

/-- The `Meme` dataclass of `meme_search.py`. -/
structure Meme where
  title : String
  source : String
  content_type : String
  url : String
  tags : List String
  deriving DecidableEq

/-- Constructing a `Meme`: `tags` defaults to `None` and
`__post_init__` replaces `None` by the empty list. -/
def Meme.make (title source content_type url : String)
    (tags : Option (List String)) : Meme :=
  { title := title, source := source, content_type := content_type,
    url := url, tags := tags.getD [] }

/-- The `(title, url)` pair used as deduplication identity. -/
def memeKey (m : Meme) : String × String := (m.title, m.url)

/-! ## Provider model (`MemeSearcher._search_reddit`) -/

/-- The content of one `post["data"]` entry of a Reddit search response,
restricted to the fields the adapter reads.  The `preview` processing of
the source is summarised by its four possible outcomes. -/
inductive RedditPreview
  | noImages
  | gifVariant (u : String)
  | plain (u : String)
  | broken
  deriving DecidableEq

structure RedditPost where
  is_self : Bool
  url : Option String
  preview : Option RedditPreview
  title : Option String
  deriving DecidableEq

/-- The parsed JSON body of one Reddit response. `malformed` models
`response.json()` raising; `noChildren` a parse without
`data`/`children` keys. -/
inductive RedditBody
  | malformed
  | noChildren
  | posts (ps : List RedditPost)
  deriving DecidableEq

/-- One provider response: `exn` models `requests.get` raising
(transport error or timeout); otherwise an HTTP status and body. -/
inductive RedditResp
  | exn
  | resp (status : Nat) (body : RedditBody)
  deriving DecidableEq

/-- The network oracle: subreddit, query string and requested limit to
response. -/
def Net : Type := String → String → Nat → RedditResp

/-- A provider response on which the adapter's request cannot produce
results for network reasons: transport error, non-200 status, or
malformed JSON payload. -/
def failingResp : RedditResp → Bool
  | RedditResp.exn => true
  | RedditResp.resp status body =>
    !(status == 200) ||
      (match body with
       | RedditBody.malformed => true
       | _ => false)

def subredditList : List String :=
  ["animemes", "anime_irl", "animememes", "goodanimemes", "KimetsuNoYaiba"]

/-- `image_url.replace("&amp;", "&")` applied to preview URLs. -/
def htmlDecode (u : String) : String := pyReplace u "&amp;" "&"

/-- The direct-URL branch: extension check on `post_data["url"]`. -/
def directMedia (u : String) : Option (String × String) :=
  if pyEndsWith u ".jpg" || pyEndsWith u ".jpeg" || pyEndsWith u ".png" then
    some (u, "image")
  else if pyEndsWith u ".gif" then some (u, "gif")
  else none

/-- Mapping one Reddit post to a `Meme`: `none` means the post is
skipped (self post, no usable media, or broken preview data). -/
def processPost (sub : String) (post : RedditPost) : Option Meme :=
  if post.is_self then none
  else
    let direct :=
      match post.url with
      | some u => directMedia u
      | none => none
    let media : Option (String × String) :=
      match direct with
      | some d => some d
      | none =>
        match post.preview with
        | none => none
        | some RedditPreview.broken => none
        | some RedditPreview.noImages => none
        | some (RedditPreview.gifVariant u) => some (htmlDecode u, "gif")
        | some (RedditPreview.plain u) => some (htmlDecode u, "image")
    match media with
    | none => none
    | some (u, ct) =>
      some { title := post.title.getD "Untitled Meme",
             source := "Reddit r/" ++ sub, content_type := ct,
             url := u, tags := [] }

/-- The loop over `data["children"]`, with the two early-break checks of
the source. -/
def processPosts (sub : String) (limit : Nat) :
    List RedditPost → List Meme → List Meme
  | [], acc => acc
  | p :: rest, acc =>
    if limit ≤ acc.length then acc
    else
      match processPost sub p with
      | none => processPosts sub limit rest acc
      | some m =>
        let acc2 := acc ++ [m]
        if limit ≤ acc2.length then acc2
        else processPosts sub limit rest acc2

/-- The body of the inner `try` of `_search_reddit` for one subreddit:
`requests.get` raising and `response.json()` raising are the `error`
outcomes; a non-200 status just leaves the results unchanged. -/
def redditAttempt (resp : RedditResp) (sub : String) (limit : Nat)
    (acc : List Meme) : Except Unit (List Meme) :=
  match resp with
  | RedditResp.exn => Except.error ()
  | RedditResp.resp status body =>
    if status == 200 then
      match body with
      | RedditBody.malformed => Except.error ()
      | RedditBody.noChildren => Except.ok acc
      | RedditBody.posts ps => Except.ok (processPosts sub limit ps acc)
    else Except.ok acc

/-- The loop over subreddits: the inner `except` clause keeps the
results accumulated so far and continues with the next subreddit. -/
def searchRedditLoop (net : Net) (query : String) (limit searchLimit : Nat) :
    List String → List Meme → List Meme
  | [], acc => acc
  | sub :: rest, acc =>
    if limit ≤ acc.length then acc
    else
      let acc2 :=
        match redditAttempt (net sub query searchLimit) sub limit acc with
        | Except.ok r => r
        | Except.error _ => acc
      searchRedditLoop net query limit searchLimit rest acc2

/-- `MemeSearcher._search_reddit`: `search_limit = max(10, limit * 3)`,
loop over the subreddits, truncate to `limit`. -/
def searchReddit (net : Net) (query : String) (limit : Nat) : List Meme :=
  (searchRedditLoop net query limit (max 10 (limit * 3)) subredditList []).take
    limit

/-- The url-based duplicate filter of `_search_online`:
`if not any(r.url == meme.url for r in results): results.append(meme)`. -/
def urlDedupAppend (results more : List Meme) : List Meme :=
  more.foldl
    (fun rs m => if rs.any (fun r => r.url == m.url) then rs else rs ++ [m])
    results

/-- `MemeSearcher._search_online`: Reddit search, then `query + " meme"`
and `"anime " + query` retries while short of `limit`. -/
def searchOnline (net : Net) (query : String) (limit : Nat) : List Meme :=
  let results := searchReddit net query limit
  let results :=
    if results.length < limit then
      urlDedupAppend results
        (searchReddit net (query ++ " meme") (limit - results.length))
    else results
  let results :=
    if results.length < limit then
      urlDedupAppend results
        (searchReddit net ("anime " ++ query) (limit - results.length))
    else results
  results

/-! ## Strategy planner and aggregator (`MemeSearcher.search_memes`) -/

def animeTagList : List String := ["anime", "demonslayer", "kimetsunoyaiba"]

def characterTagList : List String := ["tanjiro", "nezuko", "zenitsu", "inosuke"]

def fallbackTagList : List String :=
  ["tanjiro", "nezuko", "zenitsu", "inosuke", "demonslayer"]

/-- The `search_strategies` accumulation of `search_memes`. -/
def buildStrategies (topic mainQuery : String) (hashtags : List String) :
    List String :=
  let s1 := if mainQuery ≠ "" then [mainQuery] else []
  let s2 :=
    if hashtags.isEmpty then s1
    else
      let s := s1 ++ hashtags
      let s :=
        if mainQuery ≠ "" then
          s ++ hashtags.map (fun tag => mainQuery ++ " " ++ tag)
        else s
      let animeTags := hashtags.filter (fun tag => animeTagList.contains tag)
      let charTags :=
        hashtags.filter (fun tag => characterTagList.contains tag)
      if !animeTags.isEmpty && !charTags.isEmpty then
        s ++ (animeTags.map
          (fun a => charTags.map (fun c => a ++ " " ++ c))).flatten
      else s
  if s2.isEmpty then [cleanSearchQuery topic] else s2

/-- The strategy loop of `search_memes`, breaking as soon as the
accumulated results reach `limit`. -/
def strategyLoop (net : Net) (limit : Nat) :
    List String → List Meme → List Meme
  | [], results => results
  | q :: rest, results =>
    let sr := searchOnline net q limit
    if sr.isEmpty then strategyLoop net limit rest results
    else
      let results2 := results ++ sr
      if limit ≤ results2.length then results2
      else strategyLoop net limit rest results2

/-- The hashtag-attaching step of the dedup loop:
`if hashtags and meme.tags: append each missing hashtag`. -/
def attachHashtags (hs : List String) (m : Meme) : Meme :=
  if hs.isEmpty || m.tags.isEmpty then m
  else
    { m with
      tags := hs.foldl (fun ts t => if t ∈ ts then ts else ts ++ [t]) m.tags }

/-- The dedup loop shape shared by the three `(title, url)`-keyed sweeps
of `search_memes`: `f` is what is applied to a newly-seen meme before it
is appended (the hashtag attachment in the first sweep, identity in the
generic-retry sweeps). -/
def dedupSweep (f : Meme → Meme) :
    List Meme → List (String × String) → List Meme →
      List (String × String) × List Meme
  | [], seen, unique => (seen, unique)
  | m :: rest, seen, unique =>
    if memeKey m ∈ seen then dedupSweep f rest seen unique
    else dedupSweep f rest (memeKey m :: seen) (unique ++ [f m])

/-- The generic-retry block of `search_memes`, entered when no unique
result was found: `main_query + " meme"` unless some strategy already
contains `"meme"`, then the hard-coded franchise fallback when the query
or a hashtag is franchise-core. -/
def genericPhase (net : Net) (limit : Nat) (mainQuery : String)
    (hashtags strategies : List String)
    (seen : List (String × String)) (unique : List Meme) :
    List (String × String) × List Meme :=
  let su :=
    if !(strategies.any (fun s => containsSub s "meme")) then
      dedupSweep (fun m => m)
        (searchOnline net (mainQuery ++ " meme") limit) seen unique
    else (seen, unique)
  if su.2.isEmpty &&
      (characterTagList.contains mainQuery ||
        hashtags.any (fun tag => fallbackTagList.contains tag)) then
    dedupSweep (fun m => m) (searchOnline net "demon slayer anime" limit)
      su.1 su.2
  else su

/-- `search_memes` up to `unique_results` (everything before the final
shuffle and truncation). -/
def searchMemesCore (net : Net) (topic : String) (limit : Nat) : List Meme :=
  let mqhs := extractHashtags (pyStrip (pyLower topic))
  let mainQuery := mqhs.1
  let hashtags := mqhs.2
  let strategies := buildStrategies topic mainQuery hashtags
  let results := strategyLoop net limit strategies []
  let su := dedupSweep (attachHashtags hashtags) results [] []
  let su2 :=
    if su.2.isEmpty then
      genericPhase net limit mainQuery hashtags strategies su.1 su.2
    else su
  su2.2

/-- The `random.shuffle` call, modelled as an oracle reordering. -/
def Shuffle : Type := List Meme → List Meme

/-- `MemeSearcher.search_memes(topic, limit)`.  The result is an
`Except`: an uncaught Python exception would be the `error` case. -/
def searchMemesE (net : Net) (shuffle : Shuffle) (topic : String)
    (limit : Nat) : Except Unit (List Meme) :=
  if topic = "" ∨ pyStrip topic = "" then Except.ok []
  else
    let unique := searchMemesCore net topic limit
    if unique.isEmpty then Except.ok []
    else Except.ok ((shuffle unique).take limit)

/-- `f"I couldn't find any memes related to '{topic}'"`. -/
def noMemeMsg (topic : String) : String :=
  "I couldn\x27t find any memes related to \x27" ++ topic ++ "\x27"

/-- `MemeSearcher.format_meme_for_display`. -/
def formatMemeForDisplay (m : Meme) : String × Option String :=
  if m.content_type = "text" then
    ("📝 **" ++ m.title ++ "**: " ++ m.url, none)
  else ("🖼️ **" ++ m.title ++ "**", some m.url)

/-- `MemeSearcher.get_related_meme`. -/
def getRelatedMemeE (net : Net) (shuffle : Shuffle) (topic : String) :
    Except Unit (String × Option String) :=
  match searchMemesE net shuffle topic 1 with
  | Except.error e => Except.error e
  | Except.ok [] => Except.ok (noMemeMsg topic, none)
  | Except.ok (m :: _) => Except.ok (formatMemeForDisplay m)

/-- The identity reordering (a permutation), used for concrete runs. -/
def idShuffle : Shuffle := fun l => l

/-- A network oracle that returns a single image post for the query
`"tanjiro"` on `r/animemes` and an empty result list otherwise. -/
def oneImageNet : Net := fun sub query _ =>
  if sub = "animemes" ∧ query = "tanjiro" then
    RedditResp.resp 200 (RedditBody.posts
      [{ is_self := false, url := some "https://i.redd.it/x.jpg",
         preview := none, title := some "Tanjiro smiles" }])
  else RedditResp.resp 200 (RedditBody.posts [])

/-- The meme `oneImageNet`'s post maps to. -/
def sampleMeme : Meme :=
  { title := "Tanjiro smiles", source := "Reddit r/animemes",
    content_type := "image", url := "https://i.redd.it/x.jpg", tags := [] }

/-! ## Media cache (`tanjiro_web.py` : `download_image`) -/

/-- The outcome of `requests.get(url, stream=True)` together with the
streaming of the body: `exn` models the request itself raising;
otherwise the status, the chunks yielded by `iter_content` and whether
the streaming loop raised after those chunks (mid-stream network or
disk-write failure). -/
inductive FetchResult
  | exn
  | resp (status : Nat) (chunks : List (List Nat)) (midFail : Bool)
  deriving DecidableEq

def FetchOracle : Type := String → FetchResult

/-- The on-disk cache directory: path to file content. A later entry
for the same path shadows an earlier one (write = overwrite). -/
abbrev Cache : Type := List (String × List Nat)

def cacheInsert (path : String) (content : List Nat) (cache : Cache) :
    Cache := (path, content) :: cache

def invalidHostList : List String :=
  ["external-preview.redd.it", "external-i.redd.it"]

/-- `is_valid_reddit_image_url`. -/
def isValidRedditImageUrl (url : String) : Bool :=
  invalidHostList.all (fun h => !containsSub url h)

/-- The extension part of `os.path.splitext(p)`: the suffix from the
last dot of the basename, provided some earlier basename character is
not a dot. -/
def splitextExt (p : String) : String :=
  let b := p.data.foldl (fun acc c => if c = '/' then [] else acc ++ [c]) []
  let tailPart := b.reverse.takeWhile (fun c => c ≠ '.')
  if tailPart.length = b.length then ""
  else
    let pre := b.take (b.length - tailPart.length - 1)
    if pre.any (fun c => c ≠ '.') then String.mk ('.' :: tailPart.reverse)
    else ""

/-- `os.path.join(cache_dir, f"{url_hash}{ext}")` with
`ext = os.path.splitext(url)[-1] or ".jpg"`. The MD5 hex digest is an
abstract parameter. -/
def cachePathOf (md5hex : String → String) (url cacheDir : String) : String :=
  let e := splitextExt url
  let ext := if e = "" then ".jpg" else e
  cacheDir ++ "/" ++ md5hex url ++ ext

/-- `download_image(url, cache_dir)` over a cache state.  Returns the
optional local path, the new cache state, and whether a network request
was performed.  `r.raise_for_status()` raises exactly for statuses in
[400, 600); the streaming loop writes every yielded chunk to the opened
cache file before a mid-stream failure is caught, so the partial file
stays in the cache. -/
def downloadImage (md5hex : String → String) (fetch : FetchOracle)
    (url cacheDir : String) (cache : Cache) :
    Option String × Cache × Bool :=
  if !isValidRedditImageUrl url then (none, cache, false)
  else
    let cachePath := cachePathOf md5hex url cacheDir
    match cache.lookup cachePath with
    | some _ => (some cachePath, cache, false)
    | none =>
      match fetch url with
      | FetchResult.exn => (none, cache, true)
      | FetchResult.resp status chunks midFail =>
        if 400 ≤ status ∧ status < 600 then (none, cache, true)
        else
          let cache2 := cacheInsert cachePath chunks.flatten cache
          if midFail then (none, cache2, true)
          else (some cachePath, cache2, true)

/-- A fetch failure that happens before the body streaming begins. -/
def preStreamFail : FetchResult → Bool
  | FetchResult.exn => true
  | FetchResult.resp status _ _ =>
    decide (400 ≤ status) && decide (status < 600)

/-- The cache state left behind by `download_image` when the fetch of a
not-yet-cached URL fails: unchanged for a pre-stream failure, a partial
file under the cache key for a mid-stream failure. -/
def failCacheAfter (r : FetchResult) (cachePath : String) (cache : Cache) :
    Cache :=
  match r with
  | FetchResult.exn => cache
  | FetchResult.resp status chunks _ =>
    if 400 ≤ status ∧ status < 600 then cache
    else cacheInsert cachePath chunks.flatten cache

/-- A fetch outcome on which the download fails. -/
def failOutcome : FetchResult → Bool
  | FetchResult.exn => true
  | FetchResult.resp status _ midFail =>
    (decide (400 ≤ status) && decide (status < 600)) || midFail

example : extractHashtags "#tanjiro" = ("tanjiro", ["tanjiro"]) := by decide
example : extractHashtags "nezuko" = ("nezuko", []) := by decide
example : extractHashtags "#tanjiro #meme" = ("tanjiro", ["tanjiro", "meme"]) := by
  decide
example : extractHashtags "hello #anime world" = ("hello  world", ["anime"]) := by
  decide
example : cleanSearchQuery "!!!" = "" := by decide
example : cleanSearchQuery "the anime of water" = "anime water" := by decide
example : cleanSearchQuery "Hello, World" = "hello world" := by decide
example : pyReplace "a&amp;b&amp;c" "&amp;" "&" = "a&b&c" := by decide
example : pyEndsWith "photo.jpg" ".jpg" = true := by decide
example : containsSub "tanjiro meme" "meme" = true := by decide
example : buildStrategies "#tanjiro" "tanjiro" ["tanjiro"] =
    ["tanjiro", "tanjiro", "tanjiro tanjiro"] := by decide
example : searchMemesE oneImageNet idShuffle "#tanjiro" 1 =
    Except.ok [sampleMeme] := rfl
example : searchMemesE (fun _ _ _ => RedditResp.resp 500 RedditBody.noChildren)
    idShuffle "nezuko" 3 = Except.ok [] := rfl
example : searchMemesE oneImageNet idShuffle "   " 5 = Except.ok [] := rfl
example : getRelatedMemeE oneImageNet idShuffle "" =
    Except.ok ("I couldn\x27t find any memes related to \x27\x27", none) := rfl
example : splitextExt "https://i.redd.it/x.jpg" = ".jpg" := by decide
example : splitextExt "https://i.redd.it/x" = "" := by decide
example : cachePathOf (fun _ => "h") "https://i.redd.it/x.jpg" "image_cache" =
    "image_cache/h.jpg" := by decide
example :
    downloadImage (fun _ => "h") (fun _ => FetchResult.resp 200 [[7]] false)
      "https://i.redd.it/x.jpg" "image_cache" [] =
    (some "image_cache/h.jpg", [("image_cache/h.jpg", [7])], true) := by decide
example :
    downloadImage (fun _ => "h") (fun _ => FetchResult.resp 200 [[7]] true)
      "https://i.redd.it/x.jpg" "image_cache" [] =
    (none, [("image_cache/h.jpg", [7])], true) := by decide
example :
    downloadImage (fun _ => "h") (fun _ => FetchResult.exn)
      "https://i.redd.it/x.jpg" "image_cache" [("image_cache/h.jpg", [7])] =
    (some "image_cache/h.jpg", [("image_cache/h.jpg", [7])], false) := by decide

/-! ## Supporting lemmas -/

theorem redditAttempt_failing (r : RedditResp) (h : failingResp r = true)
    (sub : String) (limit : Nat) (acc : List Meme) :
    (match redditAttempt r sub limit acc with
     | Except.ok x => x
     | Except.error _ => acc) = acc := by
  cases r with
  | exn => rfl
  | resp status body =>
    simp only [failingResp] at h
    by_cases hs : (status == 200) = true
    · cases body with
      | malformed => simp [redditAttempt, hs]
      | noChildren => simp [redditAttempt, hs]
      | posts ps => rw [hs] at h; simp at h
    · simp [redditAttempt, hs]

theorem searchRedditLoop_failing (net : Net)
    (h : ∀ sub q n, failingResp (net sub q n) = true)
    (query : String) (limit searchLimit : Nat) :
    ∀ (subs : List String) (acc : List Meme),
      searchRedditLoop net query limit searchLimit subs acc = acc := by
  intro subs
  induction subs with
  | nil => intro acc; rfl
  | cons sub rest ih =>
    intro acc
    simp only [searchRedditLoop]
    by_cases hl : limit ≤ acc.length
    · rw [if_pos hl]
    · rw [if_neg hl, redditAttempt_failing _ (h sub query searchLimit), ih]

theorem searchReddit_failing (net : Net)
    (h : ∀ sub q n, failingResp (net sub q n) = true)
    (query : String) (limit : Nat) : searchReddit net query limit = [] := by
  simp [searchReddit, searchRedditLoop_failing net h]

theorem searchOnline_failing (net : Net)
    (h : ∀ sub q n, failingResp (net sub q n) = true)
    (query : String) (limit : Nat) : searchOnline net query limit = [] := by
  simp [searchOnline, searchReddit_failing net h, urlDedupAppend]

theorem strategyLoop_failing (net : Net)
    (h : ∀ sub q n, failingResp (net sub q n) = true) (limit : Nat) :
    ∀ (strategies : List String) (results : List Meme),
      strategyLoop net limit strategies results = results := by
  intro strategies
  induction strategies with
  | nil => intro results; rfl
  | cons q rest ih =>
    intro results
    simp [strategyLoop, searchOnline_failing net h, ih]

theorem searchMemesCore_failing (net : Net)
    (h : ∀ sub q n, failingResp (net sub q n) = true)
    (topic : String) (limit : Nat) : searchMemesCore net topic limit = [] := by
  simp [searchMemesCore, genericPhase, strategyLoop_failing net h,
    searchOnline_failing net h, dedupSweep]

/-- Invariant of the dedup sweeps: the accumulated unique results have
pairwise-distinct `(title, url)` keys, all of them recorded in `seen`. -/
def DedupInv (p : List (String × String) × List Meme) : Prop :=
  (p.2.map memeKey).Nodup ∧ ∀ k ∈ p.2.map memeKey, k ∈ p.1

theorem memeKey_attachHashtags (hs : List String) (m : Meme) :
    memeKey (attachHashtags hs m) = memeKey m := by
  unfold attachHashtags
  split <;> rfl

theorem dedupSweep_inv (f : Meme → Meme)
    (hf : ∀ m, memeKey (f m) = memeKey m) (ms : List Meme) :
    ∀ (seen : List (String × String)) (unique : List Meme),
      DedupInv (seen, unique) → DedupInv (dedupSweep f ms seen unique) := by
  induction ms with
  | nil => intro seen unique h; exact h
  | cons m rest ih =>
    intro seen unique h
    simp only [dedupSweep]
    by_cases hmem : memeKey m ∈ seen
    · rw [if_pos hmem]
      exact ih seen unique h
    · rw [if_neg hmem]
      apply ih
      constructor
      · rw [List.map_append]
        have hkey : List.map memeKey [f m] = [memeKey m] := by simp [hf m]
        rw [hkey]
        apply List.Nodup.append h.1 (List.nodup_singleton _)
        intro k hk1 hk2
        rw [List.mem_singleton] at hk2
        subst hk2
        exact hmem (h.2 _ hk1)
      · intro k hk
        rw [List.map_append] at hk
        rcases List.mem_append.mp hk with hk | hk
        · exact List.mem_cons_of_mem _ (h.2 _ hk)
        · have hkey : List.map memeKey [f m] = [memeKey m] := by simp [hf m]
          rw [hkey, List.mem_singleton] at hk
          subst hk
          exact List.mem_cons_self _ _

theorem genericPhase_inv (net : Net) (limit : Nat) (mq : String)
    (hs strategies : List String) (seen : List (String × String))
    (unique : List Meme) (h : DedupInv (seen, unique)) :
    DedupInv (genericPhase net limit mq hs strategies seen unique) := by
  unfold genericPhase
  dsimp only
  split
  · have h1 := dedupSweep_inv (fun m => m) (fun _ => rfl)
      (searchOnline net (mq ++ " meme") limit) seen unique h
    split
    · exact dedupSweep_inv _ (fun _ => rfl) _ _ _ h1
    · exact h1
  · split
    · exact dedupSweep_inv _ (fun _ => rfl) _ _ _ h
    · exact h

theorem searchMemesCore_nodup (net : Net) (topic : String) (limit : Nat) :
    ((searchMemesCore net topic limit).map memeKey).Nodup := by
  unfold searchMemesCore
  dsimp only
  have hstart :
      DedupInv (([] : List (String × String)), ([] : List Meme)) := by
    constructor
    · simp
    · simp
  have hsu := dedupSweep_inv
    (attachHashtags (extractHashtags (pyStrip (pyLower topic))).2)
    (memeKey_attachHashtags _)
    (strategyLoop net limit
      (buildStrategies topic (extractHashtags (pyStrip (pyLower topic))).1
        (extractHashtags (pyStrip (pyLower topic))).2) [])
    [] [] hstart
  split
  · exact (genericPhase_inv net limit _ _ _ _ _ hsu).1
  · exact hsu.1

/-! ## Claim theorems -/

/-- C1: for every topic, limit and shuffle, when every provider request
fails for network reasons (transport error, timeout, non-200 status such
as HTTP 500, or malformed JSON payload), the failure is absorbed inside
the adapter and `search_memes` raises no exception but returns the
well-formed empty list. -/
theorem searchMemes_absorbs_provider_failures (net : Net) (shuffle : Shuffle)
    (topic : String) (limit : Nat)
    (hfail : ∀ sub q n, failingResp (net sub q n) = true) :
    (searchMemesE net shuffle topic limit).isOk = true ∧
      searchMemesE net shuffle topic limit = Except.ok [] := by
  have hok : searchMemesE net shuffle topic limit = Except.ok [] := by
    unfold searchMemesE
    split
    · rfl
    · simp [searchMemesCore_failing net hfail topic limit]
  exact ⟨by rw [hok]; rfl, hok⟩

theorem searchMemes_absorbs_provider_failures_witness :
    (searchMemesE (fun _ _ _ => RedditResp.resp 500 RedditBody.noChildren)
        idShuffle "tanjiro" 2).isOk = true ∧
      searchMemesE (fun _ _ _ => RedditResp.resp 500 RedditBody.noChildren)
        idShuffle "tanjiro" 2 = Except.ok [] :=
  searchMemes_absorbs_provider_failures
    (fun _ _ _ => RedditResp.resp 500 RedditBody.noChildren) idShuffle
    "tanjiro" 2 (fun _ _ _ => rfl)

/-- C2: whenever the shuffle oracle is a permutation, the list returned
by `search_memes` contains no two entries with an identical
`(title, url)` pair. -/
theorem searchMemes_title_url_nodup (net : Net) (shuffle : Shuffle)
    (topic : String) (limit : Nat) (l : List Meme)
    (hperm : ∀ xs, (shuffle xs).Perm xs)
    (hok : searchMemesE net shuffle topic limit = Except.ok l) :
    (l.map memeKey).Nodup := by
  unfold searchMemesE at hok
  split at hok
  · cases Except.ok.inj hok
    simp
  · dsimp only at hok
    split at hok
    · cases Except.ok.inj hok
      simp
    · cases Except.ok.inj hok
      have hcore := searchMemesCore_nodup net topic limit
      have hp := (hperm (searchMemesCore net topic limit)).map memeKey
      have hshuf :
          ((shuffle (searchMemesCore net topic limit)).map memeKey).Nodup :=
        hp.nodup_iff.mpr hcore
      rw [List.map_take]
      exact List.Nodup.sublist (List.take_sublist _ _) hshuf

theorem searchMemes_title_url_nodup_witness :
    (List.map memeKey [sampleMeme]).Nodup :=
  searchMemes_title_url_nodup oneImageNet idShuffle "#tanjiro" 1 [sampleMeme]
    (fun xs => List.Perm.refl xs) rfl

/-- C3: for every topic, positive limit and shuffle, the list returned
by `search_memes(topic, limit)` has length at most `limit`. -/
theorem searchMemes_length_le_limit (net : Net) (shuffle : Shuffle)
    (topic : String) (limit : Nat) (l : List Meme) (_hpos : 0 < limit)
    (hok : searchMemesE net shuffle topic limit = Except.ok l) :
    l.length ≤ limit := by
  unfold searchMemesE at hok
  split at hok
  · cases Except.ok.inj hok
    simp
  · dsimp only at hok
    split at hok
    · cases Except.ok.inj hok
      simp
    · cases Except.ok.inj hok
      exact List.length_take_le _ _

theorem searchMemes_length_le_limit_witness : List.length [sampleMeme] ≤ 1 :=
  searchMemes_length_le_limit oneImageNet idShuffle "#tanjiro" 1 [sampleMeme]
    (by decide) rfl

/-- C4: the hashtag-attachment step of `search_memes` never fires on the
online search path: the query `"#tanjiro"` extracts the hashtag
`"tanjiro"`, yet the returned meme has an empty tag set, because the
Reddit adapter constructs every meme with `tags=[]` and the attachment
is guarded by `if hashtags and meme.tags`. -/
theorem searchMemes_hashtags_never_attached :
    searchMemesE oneImageNet idShuffle "#tanjiro" 1 =
        Except.ok [sampleMeme] ∧
      (extractHashtags (pyStrip (pyLower "#tanjiro"))).2 = ["tanjiro"] ∧
      sampleMeme.tags = [] ∧ ¬ ("tanjiro" ∈ sampleMeme.tags) :=
  ⟨rfl, by decide, rfl, by decide⟩

/-- C5: `get_related_meme("")` returns exactly the documented pair, and
for every whitespace-only topic `search_memes` returns the empty list
for every network oracle (so no provider is contacted). -/
theorem searchMemes_empty_topic_no_search (net : Net) (shuffle : Shuffle)
    (limit : Nat) (topic : String) (h : pyStrip topic = "") :
    getRelatedMemeE net shuffle "" =
        Except.ok ("I couldn\x27t find any memes related to \x27\x27", none) ∧
      searchMemesE net shuffle topic limit = Except.ok [] := by
  constructor
  · rfl
  · unfold searchMemesE
    rw [if_pos (Or.inr h)]

theorem searchMemes_empty_topic_no_search_witness :
    getRelatedMemeE oneImageNet idShuffle "" =
        Except.ok ("I couldn\x27t find any memes related to \x27\x27", none) ∧
      searchMemesE oneImageNet idShuffle "   " 5 = Except.ok [] :=
  searchMemes_empty_topic_no_search oneImageNet idShuffle 5 "   " (by decide)

/-- C6 counterexample: a download that fails mid-stream (after the cache
file has been opened and one chunk written) returns null but leaves a
partial file in the cache, so the cache state is not unchanged on this
error outcome. -/
theorem downloadImage_midstream_partial_file :
    (downloadImage (fun _ => "h") (fun _ => FetchResult.resp 200 [[7]] true)
        "https://i.redd.it/x.jpg" "image_cache" []).1 = none ∧
      (downloadImage (fun _ => "h") (fun _ => FetchResult.resp 200 [[7]] true)
        "https://i.redd.it/x.jpg" "image_cache" []).2.1 ≠ ([] : Cache) ∧
      failOutcome (FetchResult.resp 200 [[7]] true) = true :=
  ⟨by decide, by decide, by decide⟩

/-- C6 amended: on any failing fetch of a valid, not-yet-cached URL the
operation returns null; the cache is unchanged when the failure precedes
the body streaming (transport error or HTTP error status), while a
mid-stream failure leaves the partially written file under the URL's
cache key. -/
theorem downloadImage_failure_cache (md5hex : String → String)
    (fetch : FetchOracle) (url cacheDir : String) (cache : Cache)
    (hv : isValidRedditImageUrl url = true)
    (hmiss : cache.lookup (cachePathOf md5hex url cacheDir) = none)
    (hfail : failOutcome (fetch url) = true) :
    downloadImage md5hex fetch url cacheDir cache =
      (none,
       failCacheAfter (fetch url) (cachePathOf md5hex url cacheDir) cache,
       true) := by
  unfold downloadImage
  rw [hv]
  simp only [Bool.not_true, Bool.false_eq_true, if_false, hmiss]
  rcases hf : fetch url with _ | ⟨s, chunks, mid⟩
  · simp [failCacheAfter]
  · rw [hf] at hfail
    simp only [failOutcome] at hfail
    by_cases hs : 400 ≤ s ∧ s < 600
    · simp [hs, failCacheAfter]
    · have hm : mid = true := by
        rcases Bool.or_eq_true_iff.mp hfail with hb | hb
        · exact absurd ⟨of_decide_eq_true (Bool.and_eq_true_iff.mp hb).1,
            of_decide_eq_true (Bool.and_eq_true_iff.mp hb).2⟩ hs
        · exact hb
      simp [hs, hm, failCacheAfter]

theorem downloadImage_failure_cache_witness :
    downloadImage (fun _ => "h") (fun _ => FetchResult.exn)
        "https://i.redd.it/x.jpg" "image_cache" [] =
      (none, ([] : Cache), true) :=
  downloadImage_failure_cache (fun _ => "h") (fun _ => FetchResult.exn)
    "https://i.redd.it/x.jpg" "image_cache" [] rfl rfl rfl

/-- C7: when a first call to the media-cache fetch returns a path (so
the file is stored under the hash-of-URL cache key), a second call with
the same URL returns the same cached path without performing any network
request, for any behaviour of the network on the second call. -/
theorem downloadImage_cached_second_call (md5hex : String → String)
    (fetch fetch2 : FetchOracle) (url cacheDir : String) (cache : Cache)
    (p : String) (c2 : Cache) (b : Bool)
    (h : downloadImage md5hex fetch url cacheDir cache = (some p, c2, b)) :
    downloadImage md5hex fetch2 url cacheDir c2 = (some p, c2, false) := by
  unfold downloadImage at h ⊢
  by_cases hv : isValidRedditImageUrl url
  · rw [hv] at h ⊢
    simp only [Bool.not_true, Bool.false_eq_true, if_false] at h ⊢
    rcases hl : cache.lookup (cachePathOf md5hex url cacheDir) with _ | v
    · rw [hl] at h
      dsimp only at h
      rcases hf : fetch url with _ | ⟨s, chunks, mid⟩
      · rw [hf] at h
        dsimp only at h
        exact absurd (congrArg (fun t => t.1) h) (by simp)
      · rw [hf] at h
        dsimp only at h
        by_cases hs : 400 ≤ s ∧ s < 600
        · rw [if_pos hs] at h
          exact absurd (congrArg (fun t => t.1) h) (by simp)
        · rw [if_neg hs] at h
          rcases hm : mid with _ | _
          · rw [hm] at h
            simp only [Bool.false_eq_true, if_false, Prod.mk.injEq,
              Option.some.injEq] at h
            obtain ⟨hp, hc, _⟩ := h
            rw [← hc, ← hp]
            simp [cacheInsert, List.lookup]
          · rw [hm] at h
            simp only [if_true] at h
            exact absurd (congrArg (fun t => t.1) h) (by simp)
    · rw [hl] at h
      dsimp only at h
      simp only [Prod.mk.injEq, Option.some.injEq] at h
      obtain ⟨hp, hc, _⟩ := h
      rw [← hc, ← hp, hl]
  · rw [eq_false_of_ne_true hv] at h
    simp only [Bool.not_false, if_true] at h
    exact absurd (congrArg (fun t => t.1) h) (by simp)

theorem downloadImage_cached_second_call_witness :
    downloadImage (fun _ => "h") (fun _ => FetchResult.exn)
        "https://i.redd.it/x.jpg" "image_cache"
        [("image_cache/h.jpg", [7])] =
      (some "image_cache/h.jpg", [("image_cache/h.jpg", [7])], false) :=
  downloadImage_cached_second_call (fun _ => "h")
    (fun _ => FetchResult.resp 200 [[7]] false) (fun _ => FetchResult.exn)
    "https://i.redd.it/x.jpg" "image_cache" [] "image_cache/h.jpg"
    [("image_cache/h.jpg", [7])] true rfl

theorem flatten_map_nil {α β : Type} (l : List α) :
    (l.map (fun _ => ([] : List β))).flatten = [] := by
  induction l with
  | nil => rfl
  | cons a t ih => simp [ih]

/-- C8 counterexample: the strategy list is not deduplicated.  For the
query `"#tanjiro"` the extracted base query and the first hashtag
coincide, and the generated strategy list contains `"tanjiro"` twice. -/
theorem buildStrategies_not_deduplicated :
    extractHashtags (pyStrip (pyLower "#tanjiro")) =
        ("tanjiro", ["tanjiro"]) ∧
      buildStrategies "#tanjiro" "tanjiro" ["tanjiro"] =
        ["tanjiro", "tanjiro", "tanjiro tanjiro"] ∧
      ¬ (buildStrategies "#tanjiro" "tanjiro" ["tanjiro"]).Nodup :=
  ⟨by decide, by decide, by decide⟩

/-- C8 amended: for a non-empty base query or non-empty hashtag list,
the planner generates exactly the ordered concatenation base query,
hashtags, base-plus-hashtag combinations, then anime-tag × character-tag
combinations — in that order, but without removing duplicates. -/
theorem guardedProduct (X A C : List String) (f : String → String → String) :
    (if !A.isEmpty && !C.isEmpty then
      X ++ (A.map (fun a => C.map (f a))).flatten
    else X) = X ++ (A.map (fun a => C.map (f a))).flatten := by
  by_cases hA : A = []
  · subst hA
    simp
  · by_cases hC : C = []
    · subst hC
      simp [flatten_map_nil]
    · have h1 : A.isEmpty = false := by simp [List.isEmpty_iff, hA]
      have h2 : C.isEmpty = false := by simp [List.isEmpty_iff, hC]
      rw [h1, h2]
      simp

/-- C8 amended: for a non-empty base query or non-empty hashtag list,
the planner generates exactly the ordered concatenation base query,
hashtags, base-plus-hashtag combinations, then anime-tag × character-tag
combinations — in that order, but without removing duplicates. -/
theorem buildStrategies_ordered_concat (topic mainQuery : String)
    (hashtags : List String) (h : mainQuery ≠ "" ∨ hashtags ≠ []) :
    buildStrategies topic mainQuery hashtags =
      (if mainQuery = "" then [] else [mainQuery]) ++ hashtags ++
        (if mainQuery = "" then []
         else hashtags.map (fun tag => mainQuery ++ " " ++ tag)) ++
        ((hashtags.filter (fun tag => animeTagList.contains tag)).map
          (fun a =>
            (hashtags.filter (fun tag => characterTagList.contains tag)).map
              (fun c => a ++ " " ++ c))).flatten := by
  unfold buildStrategies
  dsimp only
  by_cases hh : hashtags = []
  · subst hh
    have hq : mainQuery ≠ "" := by
      rcases h with h | h
      · exact h
      · exact absurd rfl h
    simp [hq]
  · have hne : hashtags.isEmpty = false := by simp [List.isEmpty_iff, hh]
    rw [hne]
    simp only [Bool.false_eq_true, if_false]
    rw [guardedProduct]
    by_cases hq : mainQuery = ""
    · rw [if_neg (not_not_intro hq), if_neg (not_not_intro hq), if_pos hq,
        if_pos hq]
      have hemp : ((([] : List String) ++ hashtags) ++
          ((hashtags.filter (fun tag => animeTagList.contains tag)).map
            (fun a =>
              (hashtags.filter
                (fun tag => characterTagList.contains tag)).map
                (fun c => a ++ " " ++ c))).flatten).isEmpty = false := by
        simp [List.isEmpty_iff, hh]
      rw [hemp]
      simp only [Bool.false_eq_true, if_false]
      simp
    · rw [if_pos hq, if_pos hq, if_neg hq, if_neg hq]
      have hemp : ((([mainQuery] ++ hashtags) ++
          hashtags.map (fun tag => mainQuery ++ " " ++ tag)) ++
          ((hashtags.filter (fun tag => animeTagList.contains tag)).map
            (fun a =>
              (hashtags.filter
                (fun tag => characterTagList.contains tag)).map
                (fun c => a ++ " " ++ c))).flatten).isEmpty = false := by
        simp
      rw [hemp]
      simp only [Bool.false_eq_true, if_false]

theorem buildStrategies_ordered_concat_witness :
    buildStrategies "nezuko" "nezuko" [] = ["nezuko"] :=
  buildStrategies_ordered_concat "nezuko" "nezuko" []
    (Or.inl (by decide))

/-- C9: on the non-empty raw input `"!!!"` (whose lowercased/trimmed
form is `"!!!"` itself), the query-cleaning step returns the empty
string: the fallback returns the lowercased punctuation-stripped string,
not the original string verbatim. -/
theorem cleanSearchQuery_empty_fallback_bug :
    cleanSearchQuery "!!!" = "" ∧ "!!!" ≠ "" ∧
      pyStrip (pyLower "!!!") = "!!!" ∧
      stripPunct (pyLower "!!!") = "" :=
  ⟨by decide, by decide, by decide, by decide⟩

/-- C10: every constructed `Meme` has a list in its `tags` field: a
construction without tags (Python `tags=None`) yields the empty list,
and a construction with a tags list keeps it. -/
theorem memeMake_tags_defaults_empty (title source ct url : String) :
    (Meme.make title source ct url none).tags = [] ∧
      ∀ ts : List String, (Meme.make title source ct url (some ts)).tags = ts :=
  ⟨rfl, fun _ => rfl⟩
